import Mathlib

/-!
# Verification of the System Health Management core (hello-halo)

Shallow embedding of the health subsystem of the repository:

* the event listener (`src/main/services/health/health-checker`):
  error counters with a decay window, the bounded recent-event buffer,
  emission helpers;
* the process registry (`src/main/services/health/process-guardian/platform`):
  instance-id minting, registration, orphan detection;
* the recovery strategy catalog, selector and executor
  (`src/main/services/health/recovery-manager`);
* the health probes (config / disk / port / process / service).

Modelling conventions:

* `Date.now()` values are threaded as explicit `Nat` arguments;
* `randomUUID()` is modelled as a draw from a fresh-id supply (a monotone
  counter in the registry state): two draws never collide, which is the
  collision-freeness assumption the source code relies on;
* JavaScript `Map` objects are association lists preserving insertion order;
* filesystem reads are modelled by a `DiskFile` environment value (absent /
  unparsable / parsed); write errors, which the source catches and logs
  (fail-soft), are not injected: writes take the successful path;
* asynchronous external effects (process killing, session teardown, app
  relaunch, dialogs) are outside the modelled state.
-/

/-! ## Event listener: state and data model (part_002) -/

/-- A health event as held in the recent-events buffer.  The optional
`data` payload is modelled as an association list of strings. -/
structure HealthEvent where
  type : String
  category : String
  timestamp : Nat
  source : String
  message : String
  data : Option (List (String × String)) := none
deriving DecidableEq, Repr

/-- A per-source error counter: `{count, lastTime}`. -/
structure Counter where
  count : Nat
  lastTime : Nat
deriving DecidableEq, Repr

/-- State of the event-listener module: the `errorCounters` map and the
`recentEvents` buffer (most recent first, as `unshift` inserts at the
front).  Registered handlers are invoked after the buffer update and do
not touch the buffer, so they are not part of the modelled state. -/
structure EventState where
  errorCounters : List (String × Counter)
  recentEvents : List HealthEvent
deriving DecidableEq, Repr

/-- `Map.get`. -/
def mapGet (m : List (String × Counter)) (k : String) : Option Counter :=
  (m.find? (fun kv => kv.1 == k)).map (·.2)

/-- `Map.set`: update in place if the key is present, else append. -/
def mapSet (m : List (String × Counter)) (k : String) (v : Counter) :
    List (String × Counter) :=
  match m with
  | [] => [(k, v)]
  | kv :: rest => if kv.1 == k then (k, v) :: rest else kv :: mapSet rest k v

/-- `Map.delete`. -/
def mapDelete (m : List (String × Counter)) (k : String) :
    List (String × Counter) :=
  match m with
  | [] => []
  | kv :: rest => if kv.1 == k then rest else kv :: mapDelete rest k

/-- `MAX_RECENT_EVENTS` (part_002, line 17). -/
def MAX_RECENT_EVENTS : Nat := 50

/-- `COUNTER_RESET_MS` (part_002, line 24): one minute. -/
def COUNTER_RESET_MS : Nat := 60000

/-- `emitHealthEvent`: build the event, `unshift` it onto the buffer and
`pop` the oldest entry when the buffer exceeds `MAX_RECENT_EVENTS`.
Handler invocation (which cannot mutate the buffer) is elided. -/
def emitHealthEvent (st : EventState) (type category source message : String)
    (data : Option (List (String × String))) (now : Nat) : EventState :=
  let event : HealthEvent :=
    { type, category, timestamp := now, source, message, data }
  let evs := event :: st.recentEvents
  let evs := if MAX_RECENT_EVENTS < evs.length then evs.dropLast else evs
  { st with recentEvents := evs }

/-- `trackError(source)`: increment the per-source consecutive counter,
resetting it to 1 when more than `COUNTER_RESET_MS` elapsed since the
last increment.  Returns the updated count. -/
def trackError (st : EventState) (source : String) (now : Nat) :
    Nat × EventState :=
  match mapGet st.errorCounters source with
  | some counter =>
    if COUNTER_RESET_MS < now - counter.lastTime then
      (1, { st with errorCounters :=
              mapSet st.errorCounters source ⟨1, now⟩ })
    else
      (counter.count + 1,
        { st with errorCounters :=
            mapSet st.errorCounters source ⟨counter.count + 1, now⟩ })
  | none =>
    (1, { st with errorCounters := mapSet st.errorCounters source ⟨1, now⟩ })

/-- `resetErrorCounter(source)`. -/
def resetErrorCounter (st : EventState) (source : String) : EventState :=
  { st with errorCounters := mapDelete st.errorCounters source }

/-- `getErrorCount(source)`. -/
def getErrorCount (st : EventState) (source : String) : Nat :=
  ((mapGet st.errorCounters source).map (·.count)).getD 0

/-- `getTotalErrorCount()`. -/
def getTotalErrorCount (st : EventState) : Nat :=
  (st.errorCounters.map (fun kv => kv.2.count)).sum

/-- `clearRecentEvents()`. -/
def clearRecentEvents (st : EventState) : EventState :=
  { st with recentEvents := [] }

/-- `emitRecoverySuccess(strategyId, message)`: emit a `recovery_success`
info event, then clear every error counter. -/
def emitRecoverySuccess (st : EventState) (strategyId message : String)
    (now : Nat) : EventState :=
  let st := emitHealthEvent st "recovery_success" "info" strategyId message
              none now
  { st with errorCounters := [] }

/-! ## Sequencing helpers for the event listener -/

/-- Run `trackError` once per timestamp in `ts`, collecting the returned
counts in order. -/
def trackErrorSeq (st : EventState) (source : String) :
    List Nat → List Nat × EventState
  | [] => ([], st)
  | t :: ts =>
    let r := trackError st source t
    let rest := trackErrorSeq r.2 source ts
    (r.1 :: rest.1, rest.2)

/-- `ts` is a chain of timestamps starting after `last`, each within the
decay window of its predecessor. -/
def withinChain (last : Nat) : List Nat → Bool
  | [] => true
  | t :: ts => (last ≤ t && t - last ≤ COUNTER_RESET_MS) && withinChain t ts

/-- An operation on the recent-events buffer. -/
inductive EventOp
  | emit (type category source message : String)
      (data : Option (List (String × String))) (t : Nat)
  | clear
deriving Repr

/-- Apply one buffer operation. -/
def applyEventOp (st : EventState) : EventOp → EventState
  | .emit ty cat src msg d t => emitHealthEvent st ty cat src msg d t
  | .clear => clearRecentEvents st

/-- Apply a sequence of buffer operations. -/
def applyEventOps (st : EventState) (ops : List EventOp) : EventState :=
  ops.foldl applyEventOp st

/-- The unbounded "ideal" buffer: every event emitted since the last
clear, most recent first, on top of `base`. -/
def recentAfter (base : List HealthEvent) : List EventOp → List HealthEvent
  | [] => base
  | .emit ty cat src msg d t :: ops =>
      recentAfter (⟨ty, cat, t, src, msg, d⟩ :: base) ops
  | .clear :: ops => recentAfter [] ops

/-! ## Process registry: data model and operations
(process-guardian/platform registry module) -/

/-- `ProcessType` (types file). -/
inductive ProcessType
  | v2Session | tunnel | openaiRouter | httpServer
deriving DecidableEq, Repr

/-- `ProcessEntry`: one registered process.  Instance ids are draws from
the fresh-id supply, modelled as naturals. -/
structure ProcessEntry where
  id : String
  pid : Option Nat
  type : ProcessType
  instanceId : Nat
  startedAt : Nat
  lastHeartbeat : Nat
deriving DecidableEq, Repr

/-- `HealthRegistry`: the persisted root document. -/
structure HealthRegistry where
  version : Nat
  instanceId : Nat
  previousInstanceId : Option Nat
  startedAt : Nat
  lastCleanExit : Bool
  processes : List ProcessEntry
deriving DecidableEq, Repr

/-- What a read of the registry file can observe: no file, a file whose
JSON does not parse, or a parsed registry. -/
inductive DiskFile
  | absent
  | corrupt
  | parsed (r : HealthRegistry)
deriving DecidableEq, Repr

/-- Module-level state of the registry: `currentInstanceId` (`none`
models the initial empty string), `previousInstanceId`, the in-memory
`registryCache`, the on-disk file, and the fresh-id supply standing in
for `randomUUID()`. -/
structure RegState where
  currentInstanceId : Option Nat
  previousInstanceId : Option Nat
  registryCache : Option HealthRegistry
  disk : DiskFile
  uuidSupply : Nat
deriving DecidableEq, Repr

/-- The process entries of the on-disk registry (empty when the file is
absent or unreadable). -/
def diskProcesses (st : RegState) : List ProcessEntry :=
  match st.disk with
  | .parsed r => r.processes
  | _ => []

/-- `markInstanceStart()`: mint a new instance id, read the previous
registry if any (capturing its `instanceId` as `previousInstanceId`;
a read/parse failure leaves the previous value in place), and write a
fresh registry that keeps all prior process entries. -/
def markInstanceStart (st : RegState) (startTime : Nat) : Nat × RegState :=
  let newId := st.uuidSupply
  let prevRead : Option HealthRegistry × Option Nat :=
    match st.disk with
    | .parsed r => (some r, some r.instanceId)
    | .corrupt => (none, st.previousInstanceId)
    | .absent => (none, st.previousInstanceId)
  let registry : HealthRegistry :=
    { version := 1
      instanceId := newId
      previousInstanceId := prevRead.2
      startedAt := startTime
      lastCleanExit := false
      processes := ((prevRead.1).map (·.processes)).getD [] }
  (newId,
    { currentInstanceId := some newId
      previousInstanceId := prevRead.2
      registryCache := some registry
      disk := .parsed registry
      uuidSupply := st.uuidSupply + 1 })

/-- `loadRegistry()`: return the cache if warm, else read the disk
(caching a successful parse); absence and parse failure yield `none`. -/
def loadRegistry (st : RegState) : Option HealthRegistry × RegState :=
  match st.registryCache with
  | some r => (some r, st)
  | none =>
    match st.disk with
    | .absent => (none, st)
    | .corrupt => (none, st)
    | .parsed r => (some r, { st with registryCache := some r })

/-- `saveRegistry`: persist and cache (successful-write path; the source
catches and logs write errors). -/
def saveRegistry (st : RegState) (r : HealthRegistry) : RegState :=
  { st with disk := .parsed r, registryCache := some r }

/-- The process list an observer of the registry sees (empty when no
registry is loadable). -/
def registryProcesses (st : RegState) : List ProcessEntry :=
  (((loadRegistry st).1).map (·.processes)).getD []

/-- Argument of `registerProcess`: a `ProcessEntry` minus
`lastHeartbeat` (which `registerProcess` stamps itself). -/
structure ProcessEntryInput where
  id : String
  pid : Option Nat
  type : ProcessType
  instanceId : Nat
  startedAt : Nat
deriving DecidableEq, Repr

/-- `findIndex` + in-place update / `push` of `registerProcess`: replace
the first entry with the same `(id, type)`, else append. -/
def upsertEntry (ps : List ProcessEntry) (ne : ProcessEntry) :
    List ProcessEntry :=
  match ps with
  | [] => [ne]
  | p :: rest =>
    if p.id == ne.id && p.type == ne.type then ne :: rest
    else p :: upsertEntry rest ne

/-- `findIndex` + `splice` of `unregisterProcess`: drop the first entry
with the given `(id, type)`. -/
def removeEntry (ps : List ProcessEntry) (id : String) (ty : ProcessType) :
    List ProcessEntry :=
  match ps with
  | [] => []
  | p :: rest =>
    if p.id == id && p.type == ty then rest
    else p :: removeEntry rest id ty

/-- Whether some entry matches the given `(id, type)`. -/
def hasEntry (ps : List ProcessEntry) (id : String) (ty : ProcessType) :
    Bool :=
  ps.any (fun p => p.id == id && p.type == ty)

/-- `registerProcess(entry)`: find-or-insert against the loaded registry,
then persist.  A missing registry logs and returns. -/
def registerProcess (st : RegState) (e : ProcessEntryInput) (now : Nat) :
    RegState :=
  match loadRegistry st with
  | (none, st') => st'
  | (some registry, st') =>
    let newEntry : ProcessEntry :=
      ⟨e.id, e.pid, e.type, e.instanceId, e.startedAt, now⟩
    saveRegistry st'
      { registry with processes := upsertEntry registry.processes newEntry }

/-- `unregisterProcess(id, type)`: find-and-remove; only persists when an
entry was actually removed. -/
def unregisterProcess (st : RegState) (id : String) (ty : ProcessType) :
    RegState :=
  match loadRegistry st with
  | (none, st') => st'
  | (some registry, st') =>
    if hasEntry registry.processes id ty then
      saveRegistry st'
        { registry with processes := removeEntry registry.processes id ty }
    else st'

/-- `getCurrentProcesses()`: entries of the current instance. -/
def getCurrentProcesses (st : RegState) : List ProcessEntry × RegState :=
  match loadRegistry st with
  | (none, st') => ([], st')
  | (some registry, st') =>
    (registry.processes.filter
      (fun p => some p.instanceId == st'.currentInstanceId), st')

/-- `getOrphanProcesses()`: entries whose instance id differs from the
current one. -/
def getOrphanProcesses (st : RegState) : List ProcessEntry × RegState :=
  match loadRegistry st with
  | (none, st') => ([], st')
  | (some registry, st') =>
    (registry.processes.filter
      (fun p => !(some p.instanceId == st'.currentInstanceId)), st')

/-- `clearOrphanEntries()`: drop non-current entries, persisting only
when something was dropped. -/
def clearOrphanEntries (st : RegState) : RegState :=
  match loadRegistry st with
  | (none, st') => st'
  | (some registry, st') =>
    let kept := registry.processes.filter
      (fun p => some p.instanceId == st'.currentInstanceId)
    if kept.length < registry.processes.length then
      saveRegistry st' { registry with processes := kept }
    else st'

/-- `markCleanExit()`. -/
def markCleanExit (st : RegState) : RegState :=
  match loadRegistry st with
  | (none, st') => st'
  | (some registry, st') =>
    saveRegistry st' { registry with lastCleanExit := true }

/-- Iterate `markInstanceStart` over a list of start times, collecting
the minted instance ids. -/
def runStarts (st : RegState) : List Nat → List Nat × RegState
  | [] => ([], st)
  | t :: ts =>
    let r := markInstanceStart st t
    let rest := runStarts r.2 ts
    (r.1 :: rest.1, rest.2)

/-! ## Recovery strategies: catalog and selector (strategies.ts) -/

/-- `RecoveryStrategyId`. -/
inductive RecoveryStrategyId
  | S1 | S2 | S3 | S4
deriving DecidableEq, Repr

/-- `RecoveryStrategy`: one catalog entry. -/
structure RecoveryStrategy where
  id : RecoveryStrategyId
  name : String
  description : String
  trigger : String
  actions : List String
  requiresConsent : Bool
deriving DecidableEq, Repr

/-- `RECOVERY_STRATEGIES`: the static catalog of the four strategies. -/
def RECOVERY_STRATEGIES : RecoveryStrategyId → RecoveryStrategy
  | .S1 =>
    { id := .S1
      name := "Restart Single Process"
      description := "Kills and recreates a single unhealthy process"
      trigger := "Single process unhealthy"
      actions :=
        [ "Kill the unhealthy process"
        , "Wait for process to terminate"
        , "Process will be recreated on next use" ]
      requiresConsent := false }
  | .S2 =>
    { id := .S2
      name := "Reset Agent Engine"
      description := "Kills all V2 sessions and restarts the OpenAI Router"
      trigger := "3+ consecutive agent errors"
      actions :=
        [ "Close all active V2 sessions"
        , "Kill all SDK CLI processes"
        , "Restart OpenAI compat router (if active)"
        , "Clear agent error counters" ]
      requiresConsent := false }
  | .S3 =>
    { id := .S3
      name := "Restart Application"
      description := "Completely restarts the Halo application"
      trigger := "5+ consecutive errors"
      actions :=
        [ "Save current state (if possible)"
        , "Close all windows and processes"
        , "Relaunch application" ]
      requiresConsent := true }
  | .S4 =>
    { id := .S4
      name := "Factory Reset"
      description := "Clears all caches and resets configuration to defaults"
      trigger := "Manual trigger only"
      actions :=
        [ "Clear all cached data"
        , "Reset configuration to defaults"
        , "Clear conversation index (preserves data)"
        , "Restart application" ]
      requiresConsent := true }

/-- `ERROR_THRESHOLDS.AGENT_RESET`. -/
def AGENT_RESET : Nat := 3

/-- `ERROR_THRESHOLDS.APP_RESTART`. -/
def APP_RESTART : Nat := 5

/-- `getStrategy(id)`. -/
def getStrategy (id : RecoveryStrategyId) : RecoveryStrategy :=
  RECOVERY_STRATEGIES id

/-- `requiresConsent(strategyId)`. -/
def strategyRequiresConsent (strategyId : RecoveryStrategyId) : Bool :=
  (RECOVERY_STRATEGIES strategyId).requiresConsent

/-- `pat` is a prefix of `s` (character lists). -/
def charPrefix : List Char → List Char → Bool
  | [], _ => true
  | _ :: _, [] => false
  | a :: as, b :: bs => a == b && charPrefix as bs

/-- `pat` occurs as a contiguous substring of `s` (character lists). -/
def charSub (pat : List Char) : List Char → Bool
  | [] => pat.isEmpty
  | c :: rest => charPrefix pat (c :: rest) || charSub pat rest

/-- `String.prototype.includes`. -/
def strIncludes (s pat : String) : Bool :=
  charSub pat.toList s.toList

/-- `selectRecoveryStrategy(errorCount, source)`: S2 for agent/session
sources at 3 ≤ count < 5, S3 at count ≥ 5, else no automatic
selection. -/
def selectRecoveryStrategy (errorCount : Nat) (source : String) :
    Option RecoveryStrategyId :=
  if AGENT_RESET ≤ errorCount && errorCount < APP_RESTART &&
      (strIncludes source "agent" || strIncludes source "session") then
    some .S2
  else if APP_RESTART ≤ errorCount then
    some .S3
  else
    none

/-! ## Recovery executor (part_005) -/

/-- `RecoveryResult`. -/
structure RecoveryResult where
  strategyId : RecoveryStrategyId
  success : Bool
  message : String
  timestamp : Nat
deriving DecidableEq, Repr

/-- `RECOVERY_COOLDOWN_MS`: 30 seconds between recoveries. -/
def RECOVERY_COOLDOWN_MS : Nat := 30000

/-- `MAX_RECOVERY_ATTEMPTS`. -/
def MAX_RECOVERY_ATTEMPTS : Nat := 3

/-- Executor module state together with the modules its strategy bodies
touch: the event listener and the registry.  Session teardown, orphan
process killing and app relaunch are external effects. -/
structure ExecState where
  recentRecoveryAttempts : Nat
  lastRecoveryTime : Nat
  events : EventState
  reg : RegState
deriving DecidableEq, Repr

/-- `executeS1`: emit success; the actual restart is lazy. -/
def executeS1 (st : ExecState) (now : Nat) : RecoveryResult × ExecState :=
  let events :=
    emitRecoverySuccess st.events "S1" "Process marked for restart on next use"
      now
  (⟨.S1, true, "Process will be recreated on next use", now⟩,
   { st with events })

/-- `executeS2`: close sessions and clean orphans (external), clear the
"agent" error counter, emit success. -/
def executeS2 (st : ExecState) (now : Nat) : RecoveryResult × ExecState :=
  let events := resetErrorCounter st.events "agent"
  let events :=
    emitRecoverySuccess events "S2" "Agent engine reset successfully" now
  (⟨.S2, true, "Agent engine reset successfully", now⟩, { st with events })

/-- `executeS3`: mark clean exit, close sessions (external), clear orphan
entries, emit success, schedule relaunch (external). -/
def executeS3 (st : ExecState) (now : Nat) : RecoveryResult × ExecState :=
  let reg := markCleanExit st.reg
  let reg := clearOrphanEntries reg
  let events :=
    emitRecoverySuccess st.events "S3" "Application restart initiated" now
  (⟨.S3, true, "Application restart initiated", now⟩,
   { st with reg, events })

/-- `executeS4`: close sessions and clean orphans (external), clear
orphan entries, emit success, schedule relaunch (external). -/
def executeS4 (st : ExecState) (now : Nat) : RecoveryResult × ExecState :=
  let reg := clearOrphanEntries st.reg
  let events :=
    emitRecoverySuccess st.events "S4" "Factory reset completed" now
  (⟨.S4, true, "Factory reset completed, restarting...", now⟩,
   { st with reg, events })

/-- Dispatch on the strategy id (the `switch` of `executeRecovery`); the
`Bool` component records that the strategy body was attempted. -/
def runStrategyBody (st : ExecState) (strategyId : RecoveryStrategyId)
    (now : Nat) : RecoveryResult × ExecState × Bool :=
  match strategyId with
  | .S1 => let r := executeS1 st now; (r.1, r.2, true)
  | .S2 => let r := executeS2 st now; (r.1, r.2, true)
  | .S3 => let r := executeS3 st now; (r.1, r.2, true)
  | .S4 => let r := executeS4 st now; (r.1, r.2, true)

/-- `executeRecovery(strategyId, userConsented)`: refuse consent-gated
strategies without consent; rate-limit more than
`MAX_RECOVERY_ATTEMPTS` attempts inside the cooldown window; otherwise
run the strategy body. -/
def executeRecovery (st : ExecState) (strategyId : RecoveryStrategyId)
    (userConsented : Bool) (now : Nat) : RecoveryResult × ExecState × Bool :=
  let strategy := getStrategy strategyId
  if strategy.requiresConsent && !userConsented then
    (⟨strategyId, false, "User consent required", now⟩, st, false)
  else if now - st.lastRecoveryTime < RECOVERY_COOLDOWN_MS then
    let attempts := st.recentRecoveryAttempts + 1
    if MAX_RECOVERY_ATTEMPTS < attempts then
      (⟨strategyId, false, "Recovery rate limit exceeded", now⟩,
       { st with recentRecoveryAttempts := attempts }, false)
    else
      runStrategyBody
        { st with recentRecoveryAttempts := attempts, lastRecoveryTime := now }
        strategyId now
  else
    runStrategyBody
      { st with recentRecoveryAttempts := 1, lastRecoveryTime := now }
      strategyId now

/-! ## Health probes -/

/-- `HealthSeverity`. -/
inductive HealthSeverity
  | info | warning | critical
deriving DecidableEq, Repr

/-- `ProbeResult`: the uniform result shape.  The per-probe typed `data`
payloads are elided (no claim inspects them). -/
structure ProbeResult where
  name : String
  healthy : Bool
  severity : HealthSeverity
  message : String
  timestamp : Nat
deriving DecidableEq, Repr

/-- The relevant observations of a parsed config file: presence and type
of `aiSources.current`, presence of the `permissions` object, the
current source name, and credential presence for the custom / OAuth
cases. -/
structure ConfigFields where
  hasAiSourcesCurrent : Bool
  currentSource : Option String
  hasPermissions : Bool
  customApiKeyNonEmpty : Bool
  oauthAccessTokenPresent : Bool
deriving DecidableEq, Repr

/-- What a run of the config probe can encounter: an unexpected internal
error (the outer `catch`), a missing file, unparsable JSON, or a parsed
config. -/
inductive ConfigProbeEnv
  | internalError (msg : String)
  | fileAbsent
  | corruptJson (msg : String)
  | parsed (f : ConfigFields)
deriving DecidableEq, Repr

/-- `runConfigProbe` (config-probe.ts). -/
def runConfigProbe (env : ConfigProbeEnv) (now : Nat) : ProbeResult :=
  match env with
  | .internalError msg =>
    ⟨"config", false, .critical, s!"Config check failed: {msg}", now⟩
  | .fileAbsent =>
    ⟨"config", false, .info,
      "Config file not found, will be created on first launch", now⟩
  | .corruptJson _ =>
    ⟨"config", false, .critical, "Config file is corrupted (invalid JSON)",
      now⟩
  | .parsed f =>
    let criticalFieldsPresent := f.hasAiSourcesCurrent && f.hasPermissions
    let apiKeyConfigured :=
      match f.currentSource with
      | some src =>
        if src == "custom" then f.customApiKeyNonEmpty
        else f.oauthAccessTokenPresent
      | none => false
    let healthy := criticalFieldsPresent
    let severity : HealthSeverity :=
      if !healthy then .critical
      else if !apiKeyConfigured then .warning
      else .info
    let message :=
      if !criticalFieldsPresent then "Config file missing critical fields"
      else if !apiKeyConfigured then "No API key configured"
      else "Config file is healthy"
    ⟨"config", healthy, severity, message, now⟩

/-- `MIN_FREE_SPACE_MB`. -/
def MIN_FREE_SPACE_MB : Nat := 100

/-- `WARNING_FREE_SPACE_MB`. -/
def WARNING_FREE_SPACE_MB : Nat := 500

/-- What the disk probe can encounter: `statfsSync` throwing (yielding a
`null` from `getDiskSpace`), an unexpected internal error (outer
`catch`), or byte counts. -/
inductive DiskProbeEnv
  | statError
  | internalError (msg : String)
  | stats (freeBytes totalBytes : Nat)
deriving DecidableEq, Repr

/-- `runDiskProbe` (part_002, disk probe).  The human-readable byte
formatting of the messages is elided. -/
def runDiskProbe (env : DiskProbeEnv) (now : Nat) : ProbeResult :=
  match env with
  | .statError =>
    ⟨"disk", true, .warning, "Unable to check disk space", now⟩
  | .internalError msg =>
    ⟨"disk", true, .warning, s!"Disk check failed: {msg}", now⟩
  | .stats free _total =>
    let freeMB := free / (1024 * 1024)
    if freeMB < MIN_FREE_SPACE_MB then
      ⟨"disk", false, .critical,
        "Critical: low free space - app may not function properly", now⟩
    else if freeMB < WARNING_FREE_SPACE_MB then
      ⟨"disk", true, .warning, "Warning: Low disk space", now⟩
    else
      ⟨"disk", true, .info, "Disk space is sufficient", now⟩

/-- `HTTP_SERVER_PORT_START`. -/
def HTTP_SERVER_PORT_START : Nat := 3847

/-- `HTTP_SERVER_PORT_END`. -/
def HTTP_SERVER_PORT_END : Nat := 3866

/-- What the port probe can encounter: an internal error (outer `catch`)
or per-port availability observations. -/
inductive PortProbeEnv
  | internalError (msg : String)
  | scan (avail : Nat → Bool)

/-- `runPortProbe` (part_003): healthy iff at least one port of the
fixed inclusive range binds. -/
def runPortProbe (env : PortProbeEnv) (now : Nat) : ProbeResult :=
  match env with
  | .internalError msg =>
    ⟨"port", true, .warning, s!"Port check failed: {msg}", now⟩
  | .scan avail =>
    let ports := List.range'
      HTTP_SERVER_PORT_START
      (HTTP_SERVER_PORT_END + 1 - HTTP_SERVER_PORT_START)
    let portsAvailable := ports.filter avail
    let hasAvailablePort := !portsAvailable.isEmpty
    ⟨"port", hasAvailablePort,
      if hasAvailablePort then .info else .warning,
      if hasAvailablePort then "Ports available for use"
      else "All HTTP server ports are occupied", now⟩

/-- `CleanupResult` counts as the process probe consumes them. -/
structure CleanupCounts where
  cleaned : Nat
  failed : Nat
deriving DecidableEq, Repr

/-- What the process probe can encounter: an internal error (outer
`catch`) or the orphan snapshot and cleanup outcome. -/
inductive ProcessProbeEnv
  | internalError (msg : String)
  | run (orphansBefore : Nat) (cleanup : CleanupCounts)
deriving DecidableEq, Repr

/-- `runProcessProbe` (part_004): healthy iff no cleanup failures;
warning severity iff orphans were found. -/
def runProcessProbe (env : ProcessProbeEnv) (now : Nat) : ProbeResult :=
  match env with
  | .internalError msg =>
    ⟨"process", true, .warning, s!"Process check failed: {msg}", now⟩
  | .run orphansBefore cleanup =>
    ⟨"process", cleanup.failed == 0,
      if 0 < orphansBefore then .warning else .info,
      if 0 < orphansBefore then "Cleaned up orphan processes"
      else "No orphan processes found", now⟩

/-- Outcome of the `fetch` inside `checkHttpEndpoint`: a response with a
status, an abort (timeout), or a thrown failure. -/
inductive FetchOutcome
  | ok (status : Nat)
  | aborted
  | failed (msg : String)
deriving DecidableEq, Repr

/-- Result of `checkHttpEndpoint`. -/
structure EndpointResult where
  responsive : Bool
  responseTime : Nat
  error : Option String
deriving DecidableEq, Repr

/-- `checkHttpEndpoint` (service-probe.ts): responsive iff the response
arrived with `response.ok || status < 500`; errors and timeouts are
unresponsive. -/
def checkHttpEndpoint (o : FetchOutcome) (elapsed : Nat) : EndpointResult :=
  match o with
  | .ok status =>
    ⟨(200 ≤ status && status < 300) || status < 500, elapsed, none⟩
  | .aborted => ⟨false, elapsed, some "Timeout"⟩
  | .failed msg => ⟨false, elapsed, some msg⟩

/-- `checkOpenAIRouter`: unresponsive is critical. -/
def checkOpenAIRouter (r : EndpointResult) (now : Nat) : ProbeResult :=
  ⟨"service", r.responsive,
    if r.responsive then .info else .critical,
    if r.responsive then "OpenAI Router responsive"
    else "OpenAI Router not responding", now⟩

/-- `checkHttpServer`: unresponsive is warning. -/
def checkHttpServer (r : EndpointResult) (now : Nat) : ProbeResult :=
  ⟨"service", r.responsive,
    if r.responsive then .info else .warning,
    if r.responsive then "HTTP Server responsive"
    else "HTTP Server not responding", now⟩

/-! ## Theorems -/

/-- C10: after `emitRecoverySuccess` returns, every source's error
counter reads 0 and the total error count is 0 — a successful recovery
of any one strategy resets escalation state for all sources globally. -/
theorem emitRecoverySuccess_clears_all_counters (st : EventState)
    (sid msg : String) (now : Nat) (s : String) :
    getErrorCount (emitRecoverySuccess st sid msg now) s = 0 ∧
    getTotalErrorCount (emitRecoverySuccess st sid msg now) = 0 := by
  simp [emitRecoverySuccess, emitHealthEvent, getErrorCount,
    getTotalErrorCount, mapGet]

/-- C5: `selectRecoveryStrategy` returns S3 whenever the count is ≥ 5
regardless of source, S2 whenever 3 ≤ count < 5 and the source contains
"agent" or "session", and `none` otherwise; in particular at count 5
with source "agent:conv1" it returns S3, not S2. -/
theorem selectRecoveryStrategy_thresholds (c : Nat) (src : String) :
    (5 ≤ c → selectRecoveryStrategy c src = some .S3) ∧
    (3 ≤ c → c < 5 →
      (strIncludes src "agent" || strIncludes src "session") = true →
      selectRecoveryStrategy c src = some .S2) ∧
    (c < 3 → selectRecoveryStrategy c src = none) ∧
    (c < 5 → (strIncludes src "agent" || strIncludes src "session") = false →
      selectRecoveryStrategy c src = none) ∧
    selectRecoveryStrategy 5 "agent:conv1" = some .S3 := by
  refine ⟨?_, ?_, ?_, ?_, by decide⟩
  · intro h5
    have h1 : decide (c < APP_RESTART) = false := by
      simp [APP_RESTART]; omega
    have h2 : decide (APP_RESTART ≤ c) = true := by
      simp [APP_RESTART]; omega
    simp [selectRecoveryStrategy, h1, h2]
    simp [APP_RESTART]; omega
  · intro h3 h5 hsrc
    have h1 : decide (AGENT_RESET ≤ c) = true := by
      simp [AGENT_RESET]; omega
    have h2 : decide (c < APP_RESTART) = true := by
      simp [APP_RESTART]; omega
    simp [selectRecoveryStrategy, h1, h2, hsrc]
  · intro hlt
    have h1 : decide (AGENT_RESET ≤ c) = false := by
      simp [AGENT_RESET]; omega
    have h2 : decide (APP_RESTART ≤ c) = false := by
      simp [APP_RESTART]; omega
    simp [selectRecoveryStrategy, h1, h2]
    simp [APP_RESTART]; omega
  · intro hlt hsrc
    have h1 : decide (c < APP_RESTART) = true := by
      simp [APP_RESTART]; omega
    have h2 : decide (APP_RESTART ≤ c) = false := by
      simp [APP_RESTART]; omega
    simp [selectRecoveryStrategy, h1, h2, hsrc]
    simp [APP_RESTART]; omega

/-- C5 witness: the theorem applied at concrete counts and sources. -/
theorem selectRecoveryStrategy_thresholds_witness :
    selectRecoveryStrategy 6 "disk" = some .S3 ∧
    selectRecoveryStrategy 3 "agent:a" = some .S2 ∧
    selectRecoveryStrategy 2 "agent:a" = none ∧
    selectRecoveryStrategy 4 "disk" = none :=
  ⟨(selectRecoveryStrategy_thresholds 6 "disk").1 (by decide),
   (selectRecoveryStrategy_thresholds 3 "agent:a").2.1 (by decide) (by decide)
     (by decide),
   (selectRecoveryStrategy_thresholds 2 "agent:a").2.2.1 (by decide),
   (selectRecoveryStrategy_thresholds 4 "disk").2.2.2.1 (by decide)
     (by decide)⟩

/-- C8 counterexample: an internal error inside the config probe yields
`healthy: false` with `critical` severity — an unhealthy result, not the
fail-open healthy-with-degraded-severity result the claim asserts for
every probe. -/
theorem runConfigProbe_internal_error_unhealthy :
    (runConfigProbe (ConfigProbeEnv.internalError "boom") 0).healthy
        = false ∧
    (runConfigProbe (ConfigProbeEnv.internalError "boom") 0).severity
        = HealthSeverity.critical := by
  exact ⟨rfl, rfl⟩

/-- C8 amended: the disk, port and process probes fail open on internal
errors (healthy with `warning` severity); the config probe reports an
internal error as unhealthy with `critical` severity; and a service
check whose request fails or times out is unhealthy (`critical` for
the router check, `warning` for the HTTP-server check). -/
theorem probe_internal_error_behavior (msg : String) (now elapsed : Nat) :
    (runDiskProbe (.internalError msg) now).healthy = true ∧
    (runDiskProbe (.internalError msg) now).severity = .warning ∧
    (runDiskProbe .statError now).healthy = true ∧
    (runDiskProbe .statError now).severity = .warning ∧
    (runPortProbe (.internalError msg) now).healthy = true ∧
    (runPortProbe (.internalError msg) now).severity = .warning ∧
    (runProcessProbe (.internalError msg) now).healthy = true ∧
    (runProcessProbe (.internalError msg) now).severity = .warning ∧
    (runConfigProbe (.internalError msg) now).healthy = false ∧
    (runConfigProbe (.internalError msg) now).severity = .critical ∧
    (checkOpenAIRouter (checkHttpEndpoint (.failed msg) elapsed) now).healthy
        = false ∧
    (checkOpenAIRouter (checkHttpEndpoint (.failed msg) elapsed) now).severity
        = .critical ∧
    (checkHttpServer (checkHttpEndpoint (.failed msg) elapsed) now).healthy
        = false ∧
    (checkHttpServer (checkHttpEndpoint (.failed msg) elapsed) now).severity
        = .warning ∧
    (checkOpenAIRouter (checkHttpEndpoint .aborted elapsed) now).healthy
        = false ∧
    (checkOpenAIRouter (checkHttpEndpoint .aborted elapsed) now).severity
        = .critical ∧
    (checkHttpServer (checkHttpEndpoint .aborted elapsed) now).healthy
        = false ∧
    (checkHttpServer (checkHttpEndpoint .aborted elapsed) now).severity
        = .warning := by
  simp [runDiskProbe, runPortProbe, runProcessProbe, runConfigProbe,
    checkOpenAIRouter, checkHttpServer, checkHttpEndpoint]

/-- C2: `executeRecovery` on a consent-gated strategy (exactly S3 and
S4 in the catalog) without consent returns a structured failure with
the consent-required message, leaves the state untouched and never
reaches the strategy body; with consent it is the cooldown check, not
the consent gate, that decides, and whenever the rate limit is not hit
the strategy body is attempted. -/
theorem executeRecovery_consent_gate (st : ExecState)
    (sid : RecoveryStrategyId) (now : Nat)
    (hc : (getStrategy sid).requiresConsent = true) :
    (executeRecovery st sid false now).1.success = false ∧
    (executeRecovery st sid false now).1.message = "User consent required" ∧
    (executeRecovery st sid false now).2.1 = st ∧
    (executeRecovery st sid false now).2.2 = false ∧
    (getStrategy .S3).requiresConsent = true ∧
    (getStrategy .S4).requiresConsent = true ∧
    (getStrategy .S1).requiresConsent = false ∧
    (getStrategy .S2).requiresConsent = false ∧
    (¬(now - st.lastRecoveryTime < RECOVERY_COOLDOWN_MS ∧
        MAX_RECOVERY_ATTEMPTS < st.recentRecoveryAttempts + 1) →
      (executeRecovery st sid true now).2.2 = true) := by
  refine ⟨?_, ?_, ?_, ?_, by decide, by decide, by decide, by decide, ?_⟩
  · simp [executeRecovery, hc]
  · simp [executeRecovery, hc]
  · simp [executeRecovery, hc]
  · simp [executeRecovery, hc]
  · intro h
    by_cases hw : now - st.lastRecoveryTime < RECOVERY_COOLDOWN_MS
    · have hcap : ¬ MAX_RECOVERY_ATTEMPTS < st.recentRecoveryAttempts + 1 :=
        fun hx => h ⟨hw, hx⟩
      simp [executeRecovery, hc, hw, hcap]
      cases sid <;> simp [runStrategyBody]
    · simp [executeRecovery, hc, hw]
      cases sid <;> simp [runStrategyBody]

/-- C2 witness: the consent gate refuses S3 without consent on a
concrete fresh state, and with consent the body runs. -/
theorem executeRecovery_consent_gate_witness :
    (executeRecovery
        ⟨0, 0, ⟨[], []⟩, ⟨none, none, none, .absent, 0⟩⟩
        .S3 false 100000).1.message = "User consent required" ∧
    (executeRecovery
        ⟨0, 0, ⟨[], []⟩, ⟨none, none, none, .absent, 0⟩⟩
        .S3 true 100000).2.2 = true := by
  have h := executeRecovery_consent_gate
    ⟨0, 0, ⟨[], []⟩, ⟨none, none, none, .absent, 0⟩⟩ .S3 100000 (by decide)
  exact ⟨h.2.1, h.2.2.2.2.2.2.2.2 (by decide)⟩

/-- C7: with no registry file on disk, `markInstanceStart` creates and
persists a registry with no processes, no `previousInstanceId` and
`lastCleanExit: false`, carrying the freshly minted instance id; and a
parse failure of an existing file behaves exactly like an absent
file. -/
theorem markInstanceStart_no_previous_state (st : RegState) (t : Nat)
    (hprev : st.previousInstanceId = none)
    (hdisk : st.disk = .absent ∨ st.disk = .corrupt) :
    (markInstanceStart st t).2.registryCache =
      some { version := 1, instanceId := st.uuidSupply,
             previousInstanceId := none, startedAt := t,
             lastCleanExit := false, processes := [] } ∧
    (markInstanceStart st t).2.disk =
      .parsed { version := 1, instanceId := st.uuidSupply,
                previousInstanceId := none, startedAt := t,
                lastCleanExit := false, processes := [] } ∧
    markInstanceStart { st with disk := .corrupt } t
      = markInstanceStart { st with disk := .absent } t := by
  rcases hdisk with h | h <;> simp [markInstanceStart, h, hprev]

/-- C7 witness: the theorem applied to the pristine module state. -/
theorem markInstanceStart_no_previous_state_witness :
    (markInstanceStart ⟨none, none, none, .absent, 0⟩ 7).2.registryCache =
      some { version := 1, instanceId := 0, previousInstanceId := none,
             startedAt := 7, lastCleanExit := false, processes := [] } := by
  exact (markInstanceStart_no_previous_state
    ⟨none, none, none, .absent, 0⟩ 7 rfl (Or.inl rfl)).1

/-- When no entry matches, the `registerProcess` find-or-insert appends. -/
lemma upsertEntry_of_no_match (ps : List ProcessEntry) (ne : ProcessEntry)
    (h : ∀ p ∈ ps, (p.id == ne.id && p.type == ne.type) = false) :
    upsertEntry ps ne = ps ++ [ne] := by
  induction ps with
  | nil => rfl
  | cons p rest ih =>
    have hp := h p (by simp)
    simp only [upsertEntry, hp, Bool.false_eq_true, if_false, List.cons_append,
      List.cons.injEq, true_and]
    exact ih (fun q hq => h q (by simp [hq]))

/-- `removeEntry` skips over a prefix containing no match. -/
lemma removeEntry_append_of_no_match (ps rest : List ProcessEntry)
    (id : String) (ty : ProcessType)
    (h : ∀ p ∈ ps, (p.id == id && p.type == ty) = false) :
    removeEntry (ps ++ rest) id ty = ps ++ removeEntry rest id ty := by
  induction ps with
  | nil => rfl
  | cons p ps' ih =>
    have hp := h p (by simp)
    simp only [List.cons_append, removeEntry, hp, Bool.false_eq_true,
      if_false, List.cons.injEq, true_and]
    exact ih (fun q hq => h q (by simp [hq]))

/-- On a warm cache, `registerProcess` saves the upserted registry. -/
lemma registerProcess_cached (st : RegState) (r : HealthRegistry)
    (e : ProcessEntryInput) (now : Nat) (hc : st.registryCache = some r) :
    registerProcess st e now =
      saveRegistry st
        { r with
            processes := upsertEntry r.processes
              ⟨e.id, e.pid, e.type, e.instanceId, e.startedAt, now⟩ } := by
  simp [registerProcess, loadRegistry, hc]

/-- On a warm cache holding a matching entry, `unregisterProcess` saves
the registry with that entry removed. -/
lemma unregisterProcess_cached (st : RegState) (r : HealthRegistry)
    (id : String) (ty : ProcessType) (hc : st.registryCache = some r)
    (hmem : hasEntry r.processes id ty = true) :
    unregisterProcess st id ty =
      saveRegistry st { r with processes := removeEntry r.processes id ty } := by
  simp [unregisterProcess, loadRegistry, hc, hmem]

/-- The process list visible after a save is the saved one. -/
lemma registryProcesses_saveRegistry (st : RegState) (r : HealthRegistry) :
    registryProcesses (saveRegistry st r) = r.processes := by
  simp [registryProcesses, saveRegistry, loadRegistry]

/-- With a warm cache the visible process list is the cached one. -/
lemma registryProcesses_cached (st : RegState) (r : HealthRegistry)
    (hc : st.registryCache = some r) :
    registryProcesses st = r.processes := by
  simp [registryProcesses, loadRegistry, hc]

/-- Register-then-unregister over a warm cache with no pre-existing
`(id, type)` match restores the process list. -/
lemma register_unregister_cached (st : RegState) (r : HealthRegistry)
    (e : ProcessEntryInput) (now : Nat) (hc : st.registryCache = some r)
    (h : ∀ p ∈ r.processes, (p.id == e.id && p.type == e.type) = false) :
    registryProcesses
        (unregisterProcess (registerProcess st e now) e.id e.type)
      = r.processes := by
  set ne : ProcessEntry :=
    ⟨e.id, e.pid, e.type, e.instanceId, e.startedAt, now⟩ with hne
  have hup : upsertEntry r.processes ne = r.processes ++ [ne] :=
    upsertEntry_of_no_match r.processes ne h
  rw [registerProcess_cached st r e now hc, hup]
  set r2 : HealthRegistry := { r with processes := r.processes ++ [ne] }
    with hr2
  have hc2 : (saveRegistry st r2).registryCache = some r2 := rfl
  have hmem : hasEntry r2.processes e.id e.type = true := by
    simp [hr2, hasEntry, hne]
  rw [unregisterProcess_cached (saveRegistry st r2) r2 e.id e.type hc2 hmem,
    registryProcesses_saveRegistry]
  show (removeEntry r2.processes e.id e.type) = r.processes
  rw [hr2]
  show removeEntry (r.processes ++ [ne]) e.id e.type = r.processes
  rw [removeEntry_append_of_no_match r.processes [ne] e.id e.type h]
  simp [removeEntry, hne]

/-- C6 amended: registering and then unregistering an `(id, type)` pair
leaves the registry's process list unchanged provided no entry with
that `(id, type)` was present before the registration. -/
theorem register_unregister_roundtrip (st : RegState)
    (e : ProcessEntryInput) (now : Nat)
    (h : hasEntry (registryProcesses st) e.id e.type = false) :
    registryProcesses
        (unregisterProcess (registerProcess st e now) e.id e.type)
      = registryProcesses st := by
  have h' : ∀ p ∈ registryProcesses st,
      (p.id == e.id && p.type == e.type) = false := by
    intro p hp
    have := (List.any_eq_false).mp h
    simpa using this p hp
  cases hc : st.registryCache with
  | some r =>
    have hr : registryProcesses st = r.processes :=
      registryProcesses_cached st r hc
    rw [hr]
    exact register_unregister_cached st r e now hc (hr ▸ h')
  | none =>
    cases hd : st.disk with
    | absent =>
      simp [registryProcesses, registerProcess, unregisterProcess,
        loadRegistry, hc, hd]
    | corrupt =>
      simp [registryProcesses, registerProcess, unregisterProcess,
        loadRegistry, hc, hd]
    | parsed r =>
      have hload : registryProcesses st = r.processes := by
        simp [registryProcesses, loadRegistry, hc, hd]
      have hwarm : registerProcess st e now =
          registerProcess { st with registryCache := some r } e now := by
        simp [registerProcess, loadRegistry, hc, hd]
      rw [hload, hwarm]
      exact register_unregister_cached { st with registryCache := some r } r
        e now rfl (hload ▸ h')

/-- C6 counterexample: when an entry with the same `(id, type)` already
exists, `registerProcess` replaces it and `unregisterProcess` then
removes it, so the pre-existing entry is lost and the process list is
not restored. -/
theorem register_unregister_not_preserving :
    (fun st : RegState =>
      ¬ registryProcesses
          (unregisterProcess
            (registerProcess st ⟨"a", some 22, .v2Session, 1, 5⟩ 5)
            "a" .v2Session)
        = registryProcesses st)
      { currentInstanceId := some 1, previousInstanceId := none,
        registryCache := some
          { version := 1, instanceId := 1, previousInstanceId := none,
            startedAt := 0, lastCleanExit := false,
            processes := [⟨"a", some 11, .v2Session, 0, 0, 0⟩] },
        disk := .parsed
          { version := 1, instanceId := 1, previousInstanceId := none,
            startedAt := 0, lastCleanExit := false,
            processes := [⟨"a", some 11, .v2Session, 0, 0, 0⟩] },
        uuidSupply := 2 } := by
  decide

/-- `markInstanceStart` returns the next supply value and advances the
supply by one. -/
lemma markInstanceStart_supply (st : RegState) (t : Nat) :
    (markInstanceStart st t).1 = st.uuidSupply ∧
    (markInstanceStart st t).2.uuidSupply = st.uuidSupply + 1 := by
  cases h : st.disk <;> simp [markInstanceStart, h]

/-- The ids a sequence of starts mints are consecutive supply values. -/
lemma runStarts_ids (ts : List Nat) :
    ∀ st : RegState, (runStarts st ts).1 =
      List.range' st.uuidSupply ts.length := by
  induction ts with
  | nil => intro st; rfl
  | cons t ts ih =>
    intro st
    have h1 := (markInstanceStart_supply st t).1
    have h2 := (markInstanceStart_supply st t).2
    simp only [runStarts, ih (markInstanceStart st t).2, h1, h2,
      List.length_cons, List.range'_succ]

/-- C1: every start call mints an instance id distinct from the one of
every earlier call (the minted ids of any call sequence are nodup), and
immediately after a start returns, the orphan set is exactly the set of
process entries that the on-disk registry held before the call. -/
theorem markInstanceStart_distinct_ids_exact_orphans (st : RegState)
    (ts : List Nat) (t : Nat)
    (hfresh : ∀ p ∈ diskProcesses st, p.instanceId < st.uuidSupply) :
    (runStarts st ts).1.Nodup ∧
    (getOrphanProcesses (markInstanceStart st t).2).1 = diskProcesses st := by
  constructor
  · rw [runStarts_ids ts st]
    exact List.nodup_range' st.uuidSupply ts.length
  · cases hd : st.disk with
    | absent =>
      simp [markInstanceStart, hd, getOrphanProcesses, loadRegistry,
        diskProcesses]
    | corrupt =>
      simp [markInstanceStart, hd, getOrphanProcesses, loadRegistry,
        diskProcesses]
    | parsed r =>
      simp only [markInstanceStart, hd, getOrphanProcesses, loadRegistry,
        diskProcesses, Option.map_some', Option.getD_some]
      rw [List.filter_eq_self]
      intro p hp
      have hlt : p.instanceId < st.uuidSupply := by
        apply hfresh
        simp [diskProcesses, hd]
        exact hp
      simp
      omega

/-- C1 witness: three starts from a state whose disk registry holds two
entries of an older instance. -/
theorem markInstanceStart_distinct_ids_exact_orphans_witness :
    (runStarts
        ⟨some 2, none,
          some ⟨1, 2, some 1, 0, false,
            [⟨"a", some 9, .v2Session, 1, 0, 0⟩,
             ⟨"b", none, .tunnel, 2, 0, 0⟩]⟩,
          .parsed ⟨1, 2, some 1, 0, false,
            [⟨"a", some 9, .v2Session, 1, 0, 0⟩,
             ⟨"b", none, .tunnel, 2, 0, 0⟩]⟩, 3⟩
        [5, 6, 7]).1.Nodup ∧
    (getOrphanProcesses
        (markInstanceStart
          ⟨some 2, none,
            some ⟨1, 2, some 1, 0, false,
              [⟨"a", some 9, .v2Session, 1, 0, 0⟩,
               ⟨"b", none, .tunnel, 2, 0, 0⟩]⟩,
            .parsed ⟨1, 2, some 1, 0, false,
              [⟨"a", some 9, .v2Session, 1, 0, 0⟩,
               ⟨"b", none, .tunnel, 2, 0, 0⟩]⟩, 3⟩ 11).2).1 =
      [⟨"a", some 9, .v2Session, 1, 0, 0⟩, ⟨"b", none, .tunnel, 2, 0, 0⟩] := by
  have h := markInstanceStart_distinct_ids_exact_orphans
    ⟨some 2, none,
      some ⟨1, 2, some 1, 0, false,
        [⟨"a", some 9, .v2Session, 1, 0, 0⟩,
         ⟨"b", none, .tunnel, 2, 0, 0⟩]⟩,
      .parsed ⟨1, 2, some 1, 0, false,
        [⟨"a", some 9, .v2Session, 1, 0, 0⟩,
         ⟨"b", none, .tunnel, 2, 0, 0⟩]⟩, 3⟩
    [5, 6, 7] 11 (by decide)
  exact ⟨h.1, h.2⟩

/-- Setting a key makes it readable. -/
lemma mapGet_mapSet_self (m : List (String × Counter)) (k : String)
    (v : Counter) : mapGet (mapSet m k v) k = some v := by
  induction m with
  | nil => simp [mapSet, mapGet]
  | cons kv rest ih =>
    by_cases h : (kv.1 == k) = true
    · simp [mapSet, h, mapGet]
    · simp only [mapSet, h, Bool.false_eq_true, if_false]
      simpa [mapGet, List.find?_cons, h] using ih

/-- Tracking along a chain of in-window timestamps from a counter at
`k` returns `k+1, k+2, …` and leaves the counter at the chain's end. -/
lemma trackErrorSeq_from (src : String) (ts : List Nat) :
    ∀ (st : EventState) (k last : Nat),
      mapGet st.errorCounters src = some ⟨k, last⟩ →
      withinChain last ts = true →
      (trackErrorSeq st src ts).1 = List.range' (k + 1) ts.length ∧
      mapGet (trackErrorSeq st src ts).2.errorCounters src =
        some ⟨k + ts.length, ts.getLastD last⟩ := by
  induction ts with
  | nil =>
    intro st k last hget _
    exact ⟨rfl, by simpa [trackErrorSeq] using hget⟩
  | cons t ts ih =>
    intro st k last hget hchain
    simp only [withinChain, Bool.and_eq_true, decide_eq_true_eq] at hchain
    obtain ⟨⟨hle, hwin⟩, hchain'⟩ := hchain
    have hnot : ¬ COUNTER_RESET_MS < t - last := by omega
    have hstep : trackError st src t =
        (k + 1,
          { st with errorCounters := mapSet st.errorCounters src ⟨k + 1, t⟩ }) := by
      simp [trackError, hget, hnot]
    have hget1 : mapGet
        (mapSet st.errorCounters src ⟨k + 1, t⟩) src = some ⟨k + 1, t⟩ :=
      mapGet_mapSet_self st.errorCounters src ⟨k + 1, t⟩
    have hrec := ih
      { st with errorCounters := mapSet st.errorCounters src ⟨k + 1, t⟩ }
      (k + 1) t hget1 hchain'
    constructor
    · simp only [trackErrorSeq, hstep, hrec.1, List.length_cons,
        List.range'_succ]
    · have harith : k + 1 + ts.length = k + (ts.length + 1) := by omega
      simp only [trackErrorSeq, hstep, hrec.2, List.getLastD_cons,
        List.length_cons, harith]

/-- C4: from a fresh counter, `trackError(source)` at timestamps each
within the decay window of the previous returns 1, 2, …, N in order,
and one further call later than the window after the last returns 1
(reset) instead of N+1. -/
theorem trackError_window_behavior (st : EventState) (src : String)
    (t0 tlate : Nat) (ts : List Nat)
    (hfresh : mapGet st.errorCounters src = none)
    (hchain : withinChain t0 ts = true)
    (hlate : COUNTER_RESET_MS < tlate - ts.getLastD t0) :
    (trackErrorSeq st src (t0 :: ts)).1 = List.range' 1 (ts.length + 1) ∧
    (trackError (trackErrorSeq st src (t0 :: ts)).2 src tlate).1 = 1 := by
  have hstep : trackError st src t0 =
      (1, { st with errorCounters := mapSet st.errorCounters src ⟨1, t0⟩ }) := by
    simp [trackError, hfresh]
  have hget1 : mapGet
      (mapSet st.errorCounters src ⟨1, t0⟩) src = some ⟨1, t0⟩ :=
    mapGet_mapSet_self st.errorCounters src ⟨1, t0⟩
  have hrec := trackErrorSeq_from src ts
    { st with errorCounters := mapSet st.errorCounters src ⟨1, t0⟩ }
    1 t0 hget1 hchain
  constructor
  · simp only [trackErrorSeq, hstep, hrec.1, List.range'_succ]
  · rw [List.getLastD_eq_getLast?] at hlate
    simp only [trackErrorSeq, hstep]
    simp [trackError, hrec.2, hlate, List.getLastD_eq_getLast?]

/-- C4 witness: three in-window calls return 1,2,3; a later call past
the window returns 1. -/
theorem trackError_window_behavior_witness :
    (trackErrorSeq ⟨[], []⟩ "agent:x" [100, 200, 60000]).1 = [1, 2, 3] ∧
    (trackError (trackErrorSeq ⟨[], []⟩ "agent:x" [100, 200, 60000]).2
        "agent:x" 200000).1 = 1 := by
  have h := trackError_window_behavior ⟨[], []⟩ "agent:x" 100 200000
    [200, 60000] (by decide) (by decide) (by decide)
  exact ⟨by simpa using h.1, h.2⟩

/-- Strategy bodies do not touch the executor's cooldown bookkeeping. -/
lemma runStrategyBody_frame (st : ExecState) (sid : RecoveryStrategyId)
    (now : Nat) :
    (runStrategyBody st sid now).2.1.recentRecoveryAttempts =
      st.recentRecoveryAttempts ∧
    (runStrategyBody st sid now).2.1.lastRecoveryTime =
      st.lastRecoveryTime := by
  cases sid <;>
    simp [runStrategyBody, executeS1, executeS2, executeS3, executeS4]

/-- Reaching a strategy body always records the attempt. -/
lemma runStrategyBody_attempted (st : ExecState) (sid : RecoveryStrategyId)
    (now : Nat) : (runStrategyBody st sid now).2.2 = true := by
  cases sid <;>
    simp [runStrategyBody, executeS1, executeS2, executeS3, executeS4]

/-- The consent gate does not fire when consent was given or the
strategy needs none. -/
lemma consentGate_false (sid : RecoveryStrategyId) (c : Bool)
    (hcons : (getStrategy sid).requiresConsent = true → c = true) :
    ((getStrategy sid).requiresConsent && !c) = false := by
  cases hb : (getStrategy sid).requiresConsent
  · simp
  · simp [hcons hb]

/-- A consent-passing call inside the cooldown window but under the
attempt cap bumps the attempt counter, stamps the time, and attempts
the body. -/
lemma executeRecovery_in_window (st : ExecState) (sid : RecoveryStrategyId)
    (c : Bool) (now : Nat)
    (hcons : (getStrategy sid).requiresConsent = true → c = true)
    (hwin : now - st.lastRecoveryTime < RECOVERY_COOLDOWN_MS)
    (hcap : st.recentRecoveryAttempts + 1 ≤ MAX_RECOVERY_ATTEMPTS) :
    (executeRecovery st sid c now).2.1.recentRecoveryAttempts =
      st.recentRecoveryAttempts + 1 ∧
    (executeRecovery st sid c now).2.1.lastRecoveryTime = now ∧
    (executeRecovery st sid c now).2.2 = true := by
  have hg := consentGate_false sid c hcons
  have hnc : ¬ MAX_RECOVERY_ATTEMPTS < st.recentRecoveryAttempts + 1 := by
    omega
  simp [executeRecovery, hg, hwin, hnc, runStrategyBody_frame,
    runStrategyBody_attempted]

/-- A consent-passing call outside the cooldown window resets the
attempt counter to 1, stamps the time, and attempts the body. -/
lemma executeRecovery_fresh_window (st : ExecState)
    (sid : RecoveryStrategyId) (c : Bool) (now : Nat)
    (hcons : (getStrategy sid).requiresConsent = true → c = true)
    (hwin : ¬ now - st.lastRecoveryTime < RECOVERY_COOLDOWN_MS) :
    (executeRecovery st sid c now).2.1.recentRecoveryAttempts = 1 ∧
    (executeRecovery st sid c now).2.1.lastRecoveryTime = now ∧
    (executeRecovery st sid c now).2.2 = true := by
  have hg := consentGate_false sid c hcons
  simp [executeRecovery, hg, hwin, runStrategyBody_frame,
    runStrategyBody_attempted]

/-- A consent-passing call inside the window that exceeds the attempt
cap returns the rate-limit failure without attempting the body, only
bumping the attempt counter. -/
lemma executeRecovery_rate_limited (st : ExecState)
    (sid : RecoveryStrategyId) (c : Bool) (now : Nat)
    (hcons : (getStrategy sid).requiresConsent = true → c = true)
    (hwin : now - st.lastRecoveryTime < RECOVERY_COOLDOWN_MS)
    (hcap : MAX_RECOVERY_ATTEMPTS < st.recentRecoveryAttempts + 1) :
    executeRecovery st sid c now =
      (⟨sid, false, "Recovery rate limit exceeded", now⟩,
       { st with recentRecoveryAttempts := st.recentRecoveryAttempts + 1 },
       false) := by
  simp [executeRecovery, consentGate_false sid c hcons, hwin, hcap]

/-- C3: four consent-passing recovery calls, the first opening a fresh
cooldown window and each later one within the window of its
predecessor, make the fourth call exceed the attempt cap (3): it
returns the structured rate-limit failure, never reaches a strategy
body, and leaves the event listener and registry untouched. -/
theorem executeRecovery_rate_limit_on_fourth (st : ExecState)
    (sid : RecoveryStrategyId) (c : Bool) (t1 t2 t3 t4 : Nat)
    (hcons : (getStrategy sid).requiresConsent = true → c = true)
    (h1 : ¬ t1 - st.lastRecoveryTime < RECOVERY_COOLDOWN_MS)
    (h2 : t2 - t1 < RECOVERY_COOLDOWN_MS)
    (h3 : t3 - t2 < RECOVERY_COOLDOWN_MS)
    (h4 : t4 - t3 < RECOVERY_COOLDOWN_MS) :
    (executeRecovery (executeRecovery (executeRecovery
        (executeRecovery st sid c t1).2.1 sid c t2).2.1 sid c t3).2.1
        sid c t4).1 =
      ⟨sid, false, "Recovery rate limit exceeded", t4⟩ ∧
    (executeRecovery (executeRecovery (executeRecovery
        (executeRecovery st sid c t1).2.1 sid c t2).2.1 sid c t3).2.1
        sid c t4).2.2 = false ∧
    (executeRecovery (executeRecovery (executeRecovery
        (executeRecovery st sid c t1).2.1 sid c t2).2.1 sid c t3).2.1
        sid c t4).2.1.events =
      (executeRecovery (executeRecovery
        (executeRecovery st sid c t1).2.1 sid c t2).2.1 sid c t3).2.1.events ∧
    (executeRecovery (executeRecovery (executeRecovery
        (executeRecovery st sid c t1).2.1 sid c t2).2.1 sid c t3).2.1
        sid c t4).2.1.reg =
      (executeRecovery (executeRecovery
        (executeRecovery st sid c t1).2.1 sid c t2).2.1 sid c t3).2.1.reg := by
  obtain ⟨ha1, hl1, _⟩ := executeRecovery_fresh_window st sid c t1 hcons h1
  set s1 := (executeRecovery st sid c t1).2.1 with hs1
  have hw2 : t2 - s1.lastRecoveryTime < RECOVERY_COOLDOWN_MS := by
    rw [hl1]; exact h2
  have hc2 : s1.recentRecoveryAttempts + 1 ≤ MAX_RECOVERY_ATTEMPTS := by
    rw [ha1]; decide
  obtain ⟨ha2, hl2, _⟩ := executeRecovery_in_window s1 sid c t2 hcons hw2 hc2
  set s2 := (executeRecovery s1 sid c t2).2.1 with hs2
  have hw3 : t3 - s2.lastRecoveryTime < RECOVERY_COOLDOWN_MS := by
    rw [hl2]; exact h3
  have hc3 : s2.recentRecoveryAttempts + 1 ≤ MAX_RECOVERY_ATTEMPTS := by
    rw [ha2, ha1]; decide
  obtain ⟨ha3, hl3, _⟩ := executeRecovery_in_window s2 sid c t3 hcons hw3 hc3
  set s3 := (executeRecovery s2 sid c t3).2.1 with hs3
  have hw4 : t4 - s3.lastRecoveryTime < RECOVERY_COOLDOWN_MS := by
    rw [hl3]; exact h4
  have hc4 : MAX_RECOVERY_ATTEMPTS < s3.recentRecoveryAttempts + 1 := by
    rw [ha3, ha2, ha1]; decide
  rw [executeRecovery_rate_limited s3 sid c t4 hcons hw4 hc4]
  exact ⟨rfl, rfl, rfl, rfl⟩

/-- C3 witness: a concrete burst of four S1 executions inside one
cooldown window is rate-limited on the fourth. -/
theorem executeRecovery_rate_limit_on_fourth_witness :
    (executeRecovery (executeRecovery (executeRecovery
        (executeRecovery ⟨0, 0, ⟨[], []⟩, ⟨none, none, none, .absent, 0⟩⟩
          .S1 false 30000).2.1 .S1 false 30001).2.1 .S1 false 30002).2.1
        .S1 false 30003).1 =
      ⟨.S1, false, "Recovery rate limit exceeded", 30003⟩ := by
  exact (executeRecovery_rate_limit_on_fourth
    ⟨0, 0, ⟨[], []⟩, ⟨none, none, none, .absent, 0⟩⟩ .S1 false
    30000 30001 30002 30003 (by decide) (by decide) (by decide) (by decide)
    (by decide)).1

/-- One emission keeps the buffer equal to the truncated ideal buffer. -/
lemma emitHealthEvent_recent (st : EventState) (ty cat src msg : String)
    (d : Option (List (String × String))) (t : Nat)
    (ideal : List HealthEvent)
    (h : st.recentEvents = ideal.take MAX_RECENT_EVENTS) :
    (emitHealthEvent st ty cat src msg d t).recentEvents =
      ((⟨ty, cat, t, src, msg, d⟩ : HealthEvent) :: ideal).take
        MAX_RECENT_EVENTS := by
  set ev : HealthEvent := ⟨ty, cat, t, src, msg, d⟩ with hev
  simp only [emitHealthEvent, h]
  by_cases hlen : MAX_RECENT_EVENTS ≤ ideal.length
  · have hl : (ideal.take MAX_RECENT_EVENTS).length = MAX_RECENT_EVENTS := by
      simp [List.length_take]; omega
    have hcond : MAX_RECENT_EVENTS <
        (ev :: ideal.take MAX_RECENT_EVENTS).length := by
      simp [hl]
    simp only [hcond, if_pos]
    rw [List.dropLast_eq_take]
    simp only [List.length_cons, hl, Nat.add_sub_cancel]
    show (ev :: ideal.take MAX_RECENT_EVENTS).take MAX_RECENT_EVENTS =
      (ev :: ideal).take MAX_RECENT_EVENTS
    have h50 : MAX_RECENT_EVENTS = 49 + 1 := rfl
    rw [h50, List.take_succ_cons, List.take_succ_cons, List.take_take]
    simp
  · push_neg at hlen
    have htake : ideal.take MAX_RECENT_EVENTS = ideal :=
      List.take_of_length_le (by omega)
    have hcond : ¬ MAX_RECENT_EVENTS < (ev :: ideal).length := by
      simp [List.length_cons]; omega
    rw [htake]
    simp only [hcond, if_neg, not_false_iff]
    rw [List.take_of_length_le (by simp [List.length_cons]; omega)]

/-- Over any operation sequence the buffer stays the truncation of the
ideal (unbounded, clear-respecting) buffer. -/
lemma applyEventOps_recent (ops : List EventOp) :
    ∀ (st : EventState) (ideal : List HealthEvent),
      st.recentEvents = ideal.take MAX_RECENT_EVENTS →
      (applyEventOps st ops).recentEvents =
        (recentAfter ideal ops).take MAX_RECENT_EVENTS := by
  induction ops with
  | nil => intro st ideal h; exact h
  | cons op ops ih =>
    intro st ideal h
    show (applyEventOps (applyEventOp st op) ops).recentEvents = _
    cases op with
    | emit ty cat src msg d t =>
      exact ih _ _ (emitHealthEvent_recent st ty cat src msg d t ideal h)
    | clear =>
      exact ih _ [] (by simp [applyEventOp, clearRecentEvents])

/-- C9: starting from any buffer within the bound, after any sequence
of `emitHealthEvent` / `clearRecentEvents` calls the buffer is exactly
the `MAX_RECENT_EVENTS` most recent events (most recent first, emptied
at the last clear), and in particular never holds more than
`MAX_RECENT_EVENTS` events. -/
theorem recentEvents_ring_buffer (st : EventState) (ops : List EventOp)
    (h : st.recentEvents.length ≤ MAX_RECENT_EVENTS) :
    (applyEventOps st ops).recentEvents =
      (recentAfter st.recentEvents ops).take MAX_RECENT_EVENTS ∧
    (applyEventOps st ops).recentEvents.length ≤ MAX_RECENT_EVENTS := by
  have hstart : st.recentEvents = st.recentEvents.take MAX_RECENT_EVENTS :=
    (List.take_of_length_le h).symm
  have hmain := applyEventOps_recent ops st st.recentEvents hstart
  refine ⟨hmain, ?_⟩
  rw [hmain]
  exact List.length_take_le _ _

/-- C9 witness: the theorem applied to the empty buffer and a short
emit/clear/emit sequence. -/
theorem recentEvents_ring_buffer_witness :
    (applyEventOps ⟨[], []⟩
        [.emit "a" "info" "s" "m1" none 1,
         .emit "b" "warning" "s" "m2" none 2,
         .clear,
         .emit "c" "critical" "s" "m3" none 3]).recentEvents =
      [⟨"c", "critical", 3, "s", "m3", none⟩] ∧
    (applyEventOps ⟨[], []⟩
        [.emit "a" "info" "s" "m1" none 1,
         .emit "b" "warning" "s" "m2" none 2,
         .clear,
         .emit "c" "critical" "s" "m3" none 3]).recentEvents.length ≤
      MAX_RECENT_EVENTS := by
  have h := recentEvents_ring_buffer ⟨[], []⟩
    [.emit "a" "info" "s" "m1" none 1,
     .emit "b" "warning" "s" "m2" none 2,
     .clear,
     .emit "c" "critical" "s" "m3" none 3] (by decide)
  exact ⟨by rw [h.1]; decide, h.2⟩

/-- C6 witness: registering a fresh `(id, type)` and unregistering it
restores a concrete one-entry process list. -/
theorem register_unregister_roundtrip_witness :
    registryProcesses
        (unregisterProcess
          (registerProcess
            { currentInstanceId := some 1, previousInstanceId := none,
              registryCache := some
                { version := 1, instanceId := 1, previousInstanceId := none,
                  startedAt := 0, lastCleanExit := false,
                  processes := [⟨"b", some 11, .tunnel, 1, 0, 0⟩] },
              disk := .parsed
                { version := 1, instanceId := 1, previousInstanceId := none,
                  startedAt := 0, lastCleanExit := false,
                  processes := [⟨"b", some 11, .tunnel, 1, 0, 0⟩] },
              uuidSupply := 2 }
            ⟨"a", some 22, .v2Session, 1, 5⟩ 5)
          "a" .v2Session)
      = registryProcesses
          { currentInstanceId := some 1, previousInstanceId := none,
            registryCache := some
              { version := 1, instanceId := 1, previousInstanceId := none,
                startedAt := 0, lastCleanExit := false,
                processes := [⟨"b", some 11, .tunnel, 1, 0, 0⟩] },
            disk := .parsed
              { version := 1, instanceId := 1, previousInstanceId := none,
                startedAt := 0, lastCleanExit := false,
                processes := [⟨"b", some 11, .tunnel, 1, 0, 0⟩] },
            uuidSupply := 2 } := by
  exact register_unregister_roundtrip
    { currentInstanceId := some 1, previousInstanceId := none,
      registryCache := some
        { version := 1, instanceId := 1, previousInstanceId := none,
          startedAt := 0, lastCleanExit := false,
          processes := [⟨"b", some 11, .tunnel, 1, 0, 0⟩] },
      disk := .parsed
        { version := 1, instanceId := 1, previousInstanceId := none,
          startedAt := 0, lastCleanExit := false,
          processes := [⟨"b", some 11, .tunnel, 1, 0, 0⟩] },
      uuidSupply := 2 }
    ⟨"a", some 22, .v2Session, 1, 5⟩ 5 (by decide)
